import Mathlib

/-!
Verification development for the OT-demo industrial-control simulation.

The definitions below are a shallow embedding of the Python sources:
* `modbus-1-plc.py`   — the Controller ("PLC logic") and its snapshot I/O,
* `modbus-1-field.py` — the EnvironmentModel (reality loop) and `write_atomic`,
* `modbus-plc1.py`    — the older Controller variant,
* `modbus-1-HMI.py`   — the operator console (signed-delta encoding).

The register bank is modelled as four total maps from addresses to integers
(pymodbus `ModbusSequentialDataBlock(0, [0]*100)`; every `setValues` call in
the embedded code writes a single slot).  Python float arithmetic in the Auto
control branch is modelled over `ℚ`.  Float rounding can shift the truncated
quotient `int(100 / (1 - penalty_factor))` by one unit relative to the exact
rational (e.g. `temp = 130` yields 249 in Python and 250 here); every
property proved below is insensitive to that difference, since it depends
only on the surrounding `clamp` bounds.  The `ZeroDivisionError` guard
condition is modelled exactly: for integer register temperatures,
`1 - penalty_factor` is the float zero iff `temp = 170`, which coincides with
the rational condition `1 - penalty_factor = 0`.
-/

namespace OTDemo

/-- One register space: a total map from address to value (booleans live in
coil/discrete-input spaces as 0/1 integers, as in pymodbus). -/
abbrev Regs := Nat → Int

/-- `context[0].getValues(fc, i, 1)[0]`, i.e. read one slot. -/
def getV (f : Regs) (i : Nat) : Int := f i

/-- `context[0].setValues(fc, i, [v])`, i.e. write one slot. -/
def setV (f : Regs) (i : Nat) (v : Int) : Regs :=
  fun j => if j = i then v else f j

/-- The four register spaces of one simulated device
(`ModbusSlaveContext` with `co`/`di`/`hr`/`ir` blocks). -/
structure Bank where
  co : Regs
  di : Regs
  hr : Regs
  ir : Regs

/-- Register-space tag (pymodbus function codes 1/2/3/4). -/
inductive Space where
  | co
  | di
  | hr
  | ir
deriving DecidableEq, Repr

/-- One `setValues` call performed by the controller during a cycle. -/
structure RegWrite where
  space : Space
  addr : Nat
  value : Int
deriving DecidableEq, Repr

/-- `clamp(val, minval, maxval)` from `modbus-1-plc.py`:
`max(minval, min(val, maxval))`. -/
def clamp (val minval maxval : Int) : Int :=
  max minval (min val maxval)

/-- `int16_signed(val)` from `modbus-1-plc.py` (also in `modbus-1-HMI.py`):
`val - 0x10000 if val >= 0x8000 else val`. -/
def int16_signed (val : Int) : Int :=
  if val ≥ 0x8000 then val - 0x10000 else val

/-- The HMI's transmit-side encoding (`modbus-1-HMI.py`, `pump_delta & 0xFFFF`);
Python's `&` with the nonnegative mask `0xFFFF` is the Euclidean remainder
modulo `2^16`. -/
def mask16 (d : Int) : Int := d % 65536

/-- Python `int()` applied to a rational value: truncation toward zero. -/
def pyint (q : ℚ) : Int :=
  if 0 ≤ q then ⌊q⌋ else ⌈q⌉

/-- Change records appended to the `changes` list of `plc_logic`
(the payloads of the formatted log strings). -/
inductive Change where
  | pumpManual (old delta new : Int)
  | pumpStatic (old new : Int)
  | fanAdj (old new : Int)
  | heaterOn (power : Int)
  | heaterOff
  | reliefOpen (old new : Int)
  | alarmCoil (old new : Int)
  | fanCoil (old new : Int)
deriving DecidableEq, Repr

/-- The controller-visible effect of one `plc_logic(context)` call: the bank
afterwards, the `setValues` calls made (in order), and the `changes` list. -/
structure PlcResult where
  bank : Bank
  writes : List RegWrite
  changes : List Change

/-- Apply one single-slot `setValues` call to the bank. -/
def doWrite (b : Bank) (s : Space) (i : Nat) (v : Int) : Bank :=
  match s with
  | .co => { b with co := setV b.co i v }
  | .di => { b with di := setV b.di i v }
  | .hr => { b with hr := setV b.hr i v }
  | .ir => { b with ir := setV b.ir i v }

/-- Perform a `setValues` call and record it in the write trace. -/
def emit (s : PlcResult) (sp : Space) (i : Nat) (v : Int) : PlcResult :=
  { s with bank := doWrite s.bank sp i v, writes := s.writes ++ [⟨sp, i, v⟩] }

/-- Append a change record (`changes.append(...)`). -/
def note (s : PlcResult) (c : Change) : PlcResult :=
  { s with changes := s.changes ++ [c] }

/-- The Auto-mode pump setpoint computation of `plc_logic`
(`modbus-1-plc.py`, lines 152–163): `TARGET_THROUGHPUT = 100`; for
`throughput < 20` a fixed 250; otherwise
`int(TARGET_THROUGHPUT / (1 - penalty_factor))` with
`penalty_factor = max(0.0, (temp - 70) / 100)`, where Python raises
`ZeroDivisionError` exactly when `1 - penalty_factor = 0` and the handler
substitutes 1000. -/
def auto_required_voltage (temp throughput : Int) : Int :=
  if throughput < 20 then 250
  else
    let penalty_factor : ℚ := max 0 (((temp : ℚ) - 70) / 100)
    if 1 - penalty_factor = 0 then 1000
    else pyint (100 / (1 - penalty_factor))

/-- The `mode == 2` (MANUAL) branch of `plc_logic`
(`modbus-1-plc.py`, lines 143–150). `delta` is `hr[5]` as read at the top of
the cycle; `current_pv` is re-read from the live bank. -/
def plc_manual (s : PlcResult) (delta : Int) : PlcResult :=
  let signed_delta := int16_signed delta
  if signed_delta ≠ 0 then
    let current_pv := getV s.bank.ir 0
    let new_pv := clamp (current_pv + signed_delta) 0 1000
    note (emit (emit s .ir 0 new_pv) .hr 5 0)
      (.pumpManual current_pv signed_delta new_pv)
  else s

/-- The `mode == 1` (AUTO) branch of `plc_logic`
(`modbus-1-plc.py`, lines 152–194): pump setpoint (`VOLTAGE_FLOOR = 200`),
fan-RPM adjustment rate-limited to ±80, heater hysteresis, and the pressure
relief valve.  All scalar arguments are the values read from the bank at the
top of `plc_logic`. -/
def plc_auto (s : PlcResult)
    (pv temp press throughput rpm target_temp relief_thresh bleed_rate : Int) :
    PlcResult :=
  let new_pv := clamp (auto_required_voltage temp throughput) 200 1000
  let s := if new_pv ≠ pv then
      note (emit s .ir 0 new_pv) (.pumpStatic pv new_pv)
    else s
  let drpm := clamp (pyint (((temp : ℚ) - (target_temp : ℚ)) * (2.5 : ℚ))) (-80) 80
  let new_rpm := clamp (rpm + drpm) 0 1000
  let s := if new_rpm ≠ rpm then
      note (emit s .ir 4 new_rpm) (.fanAdj rpm new_rpm)
    else s
  let s := if temp < target_temp - 1 then
      let heater_power := clamp ((target_temp - temp) * 4) 0 300
      note (emit (emit s .co 3 1) .ir 5 heater_power) (.heaterOn heater_power)
    else if temp > target_temp + 2 then
      note (emit (emit s .co 3 0) .ir 5 0) .heaterOff
    else s
  if press > relief_thresh then
    let reduced_pressure := clamp (press - bleed_rate) 0 1500
    note (emit (emit s .co 5 1) .ir 2 reduced_pressure)
      (.reliefOpen press reduced_pressure)
  else emit s .co 5 0

/-- The common post-processing of `plc_logic` for non-Idle, non-emergency
cycles (`modbus-1-plc.py`, lines 196–205): alarm coil and fan-active coil.
`co1old`/`co2old` are the coil values read at the top of the cycle (the code
compares against the stale `co` list); `fan_rpm` is re-read live. -/
def plc_post (s : PlcResult) (co1old co2old temp press alarm_temp alarm_press : Int) :
    PlcResult :=
  let alarm : Int := if temp > alarm_temp ∨ press > alarm_press then 1 else 0
  let s := if co1old ≠ alarm then
      note (emit s .co 1 alarm) (.alarmCoil co1old alarm)
    else s
  let fan_rpm := getV s.bank.ir 4
  let fan_on : Int := if fan_rpm > 0 then 1 else 0
  if co2old ≠ fan_on then
    note (emit s .co 2 fan_on) (.fanCoil co2old fan_on)
  else s

/-- `plc_logic(context)` from `modbus-1-plc.py` (lines 115–212): emergency
stop short-circuit, idle short-circuit, pump coil forced on, Manual/Auto
dispatch, then common post-processing. -/
def plc_logic (b0 : Bank) : PlcResult :=
  let pv := getV b0.ir 0
  let temp := getV b0.ir 1
  let press := getV b0.ir 2
  let throughput := getV b0.ir 3
  let rpm := getV b0.ir 4
  let target_temp := getV b0.hr 0
  let alarm_temp := getV b0.hr 2
  let alarm_press := getV b0.hr 3
  let mode := getV b0.hr 4
  let delta := getV b0.hr 5
  let relief_thresh := getV b0.hr 6
  let bleed_rate := getV b0.hr 7
  if getV b0.co 4 = 1 then
    emit (emit (emit ⟨b0, [], []⟩ .ir 0 0) .ir 4 0) .ir 5 0
  else if mode = 0 then ⟨b0, [], []⟩
  else
    let s := emit ⟨b0, [], []⟩ .co 0 1
    let s := if mode = 2 then plc_manual s delta
      else if mode = 1 then
        plc_auto s pv temp press throughput rpm target_temp relief_thresh bleed_rate
      else s
    plc_post s (getV b0.co 1) (getV b0.co 2) temp press alarm_temp alarm_press

/-- One logic iteration of `main` in `modbus-1-plc.py` (lines 246–251):
`plc_logic(context)` followed unconditionally by
`write_tmp_file_filtered(context)`; the Boolean records that the snapshot
file is rewritten. -/
def controller_cycle (b : Bank) : PlcResult × Bool :=
  (plc_logic b, true)

/-! ### Snapshot projection written by the Controller (`write_tmp_file_filtered`) -/

/-- The labelled slots of each space (`LABELS` in `modbus-1-plc.py`). -/
def labeled_coils : List Nat := [0, 1, 2, 3, 4, 5]

/-- Labelled discrete-input slots. -/
def labeled_discrete_inputs : List Nat := [0, 1, 2, 3]

/-- Labelled input-register slots. -/
def labeled_input_registers : List Nat := [0, 1, 2, 3, 4, 5]

/-- Labelled holding-register slots. -/
def labeled_holding_registers : List Nat := [0, 1, 2, 3, 4, 5, 6, 7]

/-- The JSON object written to the snapshot file: per space, an ordered
association list from slot index to value. -/
structure Snapshot where
  coils : List (Nat × Int)
  discrete_inputs : List (Nat × Int)
  holding_registers : List (Nat × Int)
  input_registers : List (Nat × Int)
deriving DecidableEq, Repr

/-- `write_tmp_file_filtered(context)` from `modbus-1-plc.py` (lines 55–65):
dump every labelled slot of the four spaces, except holding register 4
(`continue  # Keep mode internal`). -/
def write_tmp_file_filtered (b : Bank) : Snapshot :=
  { coils := labeled_coils.map (fun i => (i, getV b.co i)),
    discrete_inputs := labeled_discrete_inputs.map (fun i => (i, getV b.di i)),
    holding_registers := labeled_holding_registers.filterMap
      (fun i => if i = 4 then none else some (i, getV b.hr i)),
    input_registers := labeled_input_registers.map (fun i => (i, getV b.ir i)) }

/-! ### File-writing discipline (`write_atomic` vs direct writes) -/

/-- One filesystem operation performed by a snapshot writer. -/
inductive FileOp where
  | openWrite (path : String)
  | replaceFile (src dst : String)
deriving DecidableEq, Repr

/-- `write_atomic(filepath, data)` from `modbus-1-field.py` (lines 19–23):
serialize to `filepath + ".tmp"`, then `os.replace(tmp_path, filepath)`. -/
def write_atomic_ops (filepath : String) : List FileOp :=
  [.openWrite (filepath ++ ".tmp"), .replaceFile (filepath ++ ".tmp") filepath]

/-- The file operations of `write_tmp_file_filtered` in `modbus-1-plc.py`
(lines 64–65): `open(TMP_FILE, "w")` — a direct write of the target path,
with no temporary file and no rename. -/
def write_tmp_file_filtered_ops (tmp_file : String) : List FileOp :=
  [.openWrite tmp_file]

/-- Whether an operation trace opens the target path itself for writing. -/
def writesTargetDirectly (target : String) (ops : List FileOp) : Bool :=
  ops.any fun op =>
    match op with
    | .openWrite p => p = target
    | .replaceFile _ _ => false

/-! ### EnvironmentModel delta-only update (`modbus-1-field.py`, lines 105–124) -/

/-- A sensor-change record logged by the reality loop. -/
inductive EnvChange where
  | throughputChange (old new : Int)
  | pressureChange (old new : Int)
  | temperatureChange (old new : Int)
deriving DecidableEq, Repr

/-- Outcome of the "LOGGING AND UPDATE" block of `run_reality_loop`. -/
structure EnvUpdateResult where
  throughputOut : Int
  pressureOut : Int
  temperatureOut : Int
  updates : List EnvChange
  fileRewritten : Bool
deriving DecidableEq, Repr

/-- The `=== LOGGING AND UPDATE ===` block of `run_reality_loop`
(`modbus-1-field.py`, lines 105–124).  The prior sensor values
(`throughput`, `pressure`, `temperature`) come from the loaded snapshot; the
`new_*` arguments are the values computed by the physics step earlier in the
cycle.  A slot is assigned and an update recorded only when the new value
differs, and `write_atomic` runs only `if updates:`. -/
def env_logging_and_update
    (throughput pressure temperature
     new_throughput new_pressure new_temperature : Int) : EnvUpdateResult :=
  let u1 : List EnvChange :=
    if new_throughput ≠ throughput then
      [.throughputChange throughput new_throughput] else []
  let u2 : List EnvChange :=
    if new_pressure ≠ pressure then
      u1 ++ [.pressureChange pressure new_pressure] else u1
  let u3 : List EnvChange :=
    if new_temperature ≠ temperature then
      u2 ++ [.temperatureChange temperature new_temperature] else u2
  { throughputOut := if new_throughput ≠ throughput then new_throughput else throughput,
    pressureOut := if new_pressure ≠ pressure then new_pressure else pressure,
    temperatureOut := if new_temperature ≠ temperature then new_temperature else temperature,
    updates := u3,
    fileRewritten := !u3.isEmpty }

/-! ### Loop-body error handling (`main` loops of the three processes) -/

/-- What one trip through a `while True:` body does to the loop. -/
inductive CycleOutcome where
  | normal
  | crashed
deriving DecidableEq, Repr

/-- Observable summary of one loop-body execution, parameterised by whether
the snapshot read/parse raised. -/
structure CycleReport where
  loggedWarning : Bool
  appliedSnapshot : Bool
  ranLogic : Bool
  outcome : CycleOutcome
deriving DecidableEq, Repr

/-- The body of the Controller loop in `modbus-1-plc.py` (lines 237–256):
the snapshot read + memory update is inside its own `try/except` that logs a
warning, and the logic+save block is inside a second `try/except`; no
exception escapes the loop. -/
def controller_loop_body (readOk logicIteration : Bool) : CycleReport :=
  let logged := !readOk
  if logicIteration then
    { loggedWarning := logged, appliedSnapshot := readOk,
      ranLogic := true, outcome := .normal }
  else
    { loggedWarning := logged, appliedSnapshot := readOk,
      ranLogic := false, outcome := .normal }

/-- The body of the Controller loop in the `modbus-plc1.py` variant
(lines 229–242): on logic iterations `read_json_strip_comments(TMP_FILE)` and
everything after it run with **no** `try/except`, so a read or parse failure
propagates out of the `while True:` loop. -/
def variant_loop_body (readOk logicIteration : Bool) : CycleReport :=
  if logicIteration then
    if readOk then
      { loggedWarning := false, appliedSnapshot := true,
        ranLogic := true, outcome := .normal }
    else
      { loggedWarning := false, appliedSnapshot := false,
        ranLogic := false, outcome := .crashed }
  else
    { loggedWarning := false, appliedSnapshot := false,
      ranLogic := false, outcome := .normal }

/-- The body of `run_reality_loop` in `modbus-1-field.py` (lines 49–126): a
failed snapshot read logs `"Could not read TMP file"`, sleeps and
`continue`s; otherwise the physics step and delta-only update run. -/
def reality_loop_body (readOk : Bool) : CycleReport :=
  if readOk then
    { loggedWarning := false, appliedSnapshot := true,
      ranLogic := true, outcome := .normal }
  else
    { loggedWarning := true, appliedSnapshot := false,
      ranLogic := false, outcome := .normal }

/-! ### Controller snapshot load (`update_modbus_memory`, `modbus-1-plc.py`) -/

/-- One `(k, v)` snapshot entry after Python's `int(k)` / `int(v)`
conversions: `none` models a conversion that raises (caught per entry). -/
structure RawEntry where
  key : Option Nat
  val : Option Int
deriving DecidableEq, Repr

/-- The loaded snapshot object as seen by `update_modbus_memory`: the four
possible sections (`data.get(name, {})` yields `[]` when absent). -/
structure RawData where
  coils : List RawEntry
  discrete_inputs : List RawEntry
  holding_registers : List RawEntry
  input_registers : List RawEntry
deriving DecidableEq, Repr

/-- Body of the `discrete_inputs` loop: `setValues(2, idx, [1 if int(v) else 0])`
when both conversions succeed, otherwise `pass`. -/
def apply_di_entry (b : Bank) (e : RawEntry) : Bank :=
  match e.key, e.val with
  | some idx, some v => { b with di := setV b.di idx (if v ≠ 0 then 1 else 0) }
  | _, _ => b

/-- Body of the `input_registers` loop: `setValues(4, idx, [int(v)])`
when both conversions succeed, otherwise `pass`. -/
def apply_ir_entry (b : Bank) (e : RawEntry) : Bank :=
  match e.key, e.val with
  | some idx, some v => { b with ir := setV b.ir idx v }
  | _, _ => b

/-- `update_modbus_memory(context, data)` from `modbus-1-plc.py`
(lines 67–83): apply the `discrete_inputs` section, then the
`input_registers` section; each entry is wrapped in `try/except Exception:
pass`; the `coils` and `holding_registers` sections are never consulted. -/
def update_modbus_memory (b : Bank) (data : RawData) : Bank :=
  let b1 := data.discrete_inputs.foldl apply_di_entry b
  data.input_registers.foldl apply_ir_entry b1

/-- An entry survives both `int()` conversions. -/
def goodEntry (e : RawEntry) : Bool :=
  e.key.isSome && e.val.isSome

/-! ### Concrete banks used to instantiate the general theorems -/

/-- The freshly initialised bank: `ModbusSequentialDataBlock(0, [0]*100)` in
all four spaces (all slots 0: EmergencyStop off, Mode = Idle). -/
def bank0 : Bank :=
  ⟨fun _ => 0, fun _ => 0, fun _ => 0, fun _ => 0⟩

/-- A bank with the EmergencyStop coil (coil 4) latched. -/
def bank_estop : Bank :=
  ⟨fun i => if i = 4 then 1 else 0, fun _ => 0, fun _ => 0, fun _ => 0⟩

/-- A bank in Manual mode (HR 4 = 2) with PendingDelta 20 (HR 5) and pump
voltage 500 (IR 0). -/
def bank_manual : Bank :=
  ⟨fun _ => 0, fun _ => 0,
   fun i => if i = 4 then 2 else if i = 5 then 20 else 0,
   fun i => if i = 0 then 500 else 0⟩

/-- A bank in Auto mode (HR 4 = 1), all sensors 0. -/
def bank_auto : Bank :=
  ⟨fun _ => 0, fun _ => 0, fun i => if i = 4 then 1 else 0, fun _ => 0⟩

/-! ### Helper lemmas -/

theorem getV_setV (f : Regs) (i : Nat) (v : Int) (j : Nat) :
    getV (setV f i v) j = if j = i then v else getV f j := rfl

theorem clamp_bounds (v lo hi : Int) (h : lo ≤ hi) :
    lo ≤ clamp v lo hi ∧ clamp v lo hi ≤ hi :=
  ⟨le_max_left _ _, max_le h (min_le_right _ _)⟩

theorem int16_mask_roundtrip (d : Int) (h1 : -32768 ≤ d) (h2 : d ≤ 32767) :
    int16_signed (mask16 d) = d := by
  unfold int16_signed mask16
  split_ifs <;> omega

theorem mask_int16_roundtrip (v : Int) (h1 : 0 ≤ v) (h2 : v ≤ 65535) :
    mask16 (int16_signed v) = v := by
  unfold int16_signed mask16
  split_ifs <;> omega

theorem plc_post_bank_ir (s : PlcResult) (co1old co2old temp press atemp apress : Int) :
    (plc_post s co1old co2old temp press atemp apress).bank.ir = s.bank.ir := by
  simp only [plc_post]
  split_ifs <;> simp [emit, note, doWrite, getV]

theorem plc_post_bank_hr (s : PlcResult) (co1old co2old temp press atemp apress : Int) :
    (plc_post s co1old co2old temp press atemp apress).bank.hr = s.bank.hr := by
  simp only [plc_post]
  split_ifs <;> simp [emit, note, doWrite, getV]

theorem plc_auto_bank_ir0 (s : PlcResult)
    (pv temp press throughput rpm target_temp relief_thresh bleed_rate : Int)
    (h : getV s.bank.ir 0 = pv) :
    getV (plc_auto s pv temp press throughput rpm target_temp relief_thresh bleed_rate).bank.ir 0
      = clamp (auto_required_voltage temp throughput) 200 1000 := by
  simp only [plc_auto]
  split_ifs <;> simp_all [emit, note, doWrite, getV, setV]

theorem plc_auto_bank_hr (s : PlcResult)
    (pv temp press throughput rpm target_temp relief_thresh bleed_rate : Int) :
    (plc_auto s pv temp press throughput rpm target_temp relief_thresh bleed_rate).bank.hr
      = s.bank.hr := by
  simp only [plc_auto]
  split_ifs <;> simp [emit, note, doWrite, getV]

end OTDemo

namespace OTDemo

/-! ### Claim theorems -/

/-- **C7**: with EmergencyStop off and Mode = Idle (0), one `plc_logic` cycle
performs no `setValues` call at all and leaves every coil, discrete input,
input register and holding register exactly as it was. -/
theorem idle_cycle_is_noop (b : Bank)
    (hstop : getV b.co 4 = 0) (hmode : getV b.hr 4 = 0) :
    plc_logic b = ⟨b, [], []⟩ := by
  simp [plc_logic, hstop, hmode]

/-- Witness for C7: the all-zero bank is Idle with EmergencyStop off, and the
cycle leaves it untouched. -/
theorem idle_cycle_is_noop_witness :
    getV bank0.co 4 = 0 ∧ getV bank0.hr 4 = 0 ∧ plc_logic bank0 = ⟨bank0, [], []⟩ :=
  ⟨rfl, rfl, idle_cycle_is_noop bank0 rfl rfl⟩

/-- **C1**: whenever the EmergencyStop coil (coil 4) is 1, one `plc_logic`
cycle performs exactly the three writes zeroing input registers 0, 4 and 5
(pump voltage, fan RPM, heater power) and nothing else, regardless of Mode or
any sensor value: the coil, discrete-input and holding-register spaces are
untouched and the write trace is exactly those three writes. -/
theorem estop_forces_actuators_zero (b : Bank) (h : getV b.co 4 = 1) :
    (plc_logic b).writes = [⟨.ir, 0, 0⟩, ⟨.ir, 4, 0⟩, ⟨.ir, 5, 0⟩] ∧
    (plc_logic b).changes = [] ∧
    (plc_logic b).bank.co = b.co ∧
    (plc_logic b).bank.di = b.di ∧
    (plc_logic b).bank.hr = b.hr ∧
    (plc_logic b).bank.ir = setV (setV (setV b.ir 0 0) 4 0) 5 0 ∧
    getV (plc_logic b).bank.ir 0 = 0 ∧
    getV (plc_logic b).bank.ir 4 = 0 ∧
    getV (plc_logic b).bank.ir 5 = 0 := by
  have h' : b.co 4 = 1 := h
  simp [plc_logic, h', emit, doWrite, getV, setV]

/-- Witness for C1: on a bank with only the EmergencyStop coil set, the cycle
emits exactly the three zeroing writes. -/
theorem estop_forces_actuators_zero_witness :
    getV bank_estop.co 4 = 1 ∧
    (plc_logic bank_estop).writes = [⟨.ir, 0, 0⟩, ⟨.ir, 4, 0⟩, ⟨.ir, 5, 0⟩] ∧
    (plc_logic bank_estop).changes = [] :=
  ⟨rfl, (estop_forces_actuators_zero bank_estop rfl).1,
    (estop_forces_actuators_zero bank_estop rfl).2.1⟩

/-- **C8**: the signed 16-bit helpers are mutually inverse — decoding the
masked encoding of any `d ∈ [-32768, 32767]` returns `d`, and re-encoding the
decoded value of any register value `v ∈ [0, 65535]` returns `v`. -/
theorem int16_encoding_inverse :
    (∀ d : Int, -32768 ≤ d → d ≤ 32767 → int16_signed (mask16 d) = d) ∧
    (∀ v : Int, 0 ≤ v → v ≤ 65535 → mask16 (int16_signed v) = v) :=
  ⟨fun d h1 h2 => int16_mask_roundtrip d h1 h2,
   fun v h1 h2 => mask_int16_roundtrip v h1 h2⟩

/-- Witness for C8: round trips at `d = -20` and `v = 65516`. -/
theorem int16_encoding_inverse_witness :
    (-32768 ≤ (-20 : Int) ∧ (-20 : Int) ≤ 32767 ∧
      (0 : Int) ≤ 65516 ∧ (65516 : Int) ≤ 65535) ∧
    int16_signed (mask16 (-20)) = -20 ∧ mask16 (int16_signed 65516) = 65516 :=
  ⟨⟨by decide, by decide, by decide, by decide⟩,
   int16_encoding_inverse.1 (-20) (by decide) (by decide),
   int16_encoding_inverse.2 65516 (by decide) (by decide)⟩

/-- **C3**: with EmergencyStop off, Mode = Manual (2) and the PendingDelta
holding register (HR 5) carrying the masked encoding of a signed delta
`D ≠ 0`, one `plc_logic` cycle sets the pump voltage (IR 0) to
`clamp(old_pump_voltage + D, 0, 1000)` and resets HR 5 to 0 in the same
cycle. -/
theorem manual_delta_applied (b : Bank) (D : Int)
    (hstop : getV b.co 4 = 0) (hmode : getV b.hr 4 = 2)
    (henc : getV b.hr 5 = mask16 D)
    (hlo : -32768 ≤ D) (hhi : D ≤ 32767) (hD : D ≠ 0) :
    getV (plc_logic b).bank.ir 0 = clamp (getV b.ir 0 + D) 0 1000 ∧
    getV (plc_logic b).bank.hr 5 = 0 := by
  have hstop' : b.co 4 = 0 := hstop
  have hmode' : b.hr 4 = 2 := hmode
  have hdec : int16_signed (b.hr 5) = D := by
    have h5 : b.hr 5 = mask16 D := henc
    rw [h5]
    exact int16_mask_roundtrip D hlo hhi
  simp only [plc_logic, getV, hstop', hmode']
  norm_num
  rw [plc_post_bank_ir, plc_post_bank_hr]
  simp [plc_manual, hdec, hD, emit, note, doWrite, getV, setV]

/-- Witness for C3: Manual bank with pump voltage 500 and pending delta 20. -/
theorem manual_delta_applied_witness :
    getV bank_manual.co 4 = 0 ∧ getV bank_manual.hr 4 = 2 ∧
    getV bank_manual.hr 5 = mask16 20 ∧
    getV (plc_logic bank_manual).bank.ir 0 = clamp (getV bank_manual.ir 0 + 20) 0 1000 ∧
    getV (plc_logic bank_manual).bank.hr 5 = 0 :=
  ⟨rfl, rfl, by decide,
   (manual_delta_applied bank_manual 20 rfl rfl (by decide) (by decide) (by decide)
      (by decide)).1,
   (manual_delta_applied bank_manual 20 rfl rfl (by decide) (by decide) (by decide)
      (by decide)).2⟩

/-- **C4**: with EmergencyStop off and Mode = Auto (1), the pump voltage left
in IR 0 by one `plc_logic` cycle lies in `[VOLTAGE_FLOOR, 1000]` with
`VOLTAGE_FLOOR = 200`, and whenever the inverse temperature-penalty division
would divide by zero (`1 - penalty_factor = 0`, reachable only at
`temp = 170`), the computed setpoint falls back to the maximum 1000 instead of
raising. -/
theorem auto_voltage_bounded (b : Bank)
    (hstop : getV b.co 4 = 0) (hmode : getV b.hr 4 = 1) :
    (200 ≤ getV (plc_logic b).bank.ir 0 ∧ getV (plc_logic b).bank.ir 0 ≤ 1000) ∧
    (∀ temp throughput : Int, ¬ throughput < 20 →
      1 - max 0 (((temp : ℚ) - 70) / 100) = 0 →
      auto_required_voltage temp throughput = 1000) := by
  have hstop' : b.co 4 = 0 := hstop
  have hmode' : b.hr 4 = 1 := hmode
  constructor
  · have hir0 : getV (plc_logic b).bank.ir 0
        = clamp (auto_required_voltage (getV b.ir 1) (getV b.ir 3)) 200 1000 := by
      simp only [plc_logic, getV, hstop', hmode']
      norm_num
      rw [plc_post_bank_ir]
      exact plc_auto_bank_ir0 _ _ _ _ _ _ _ _ _ rfl
    rw [hir0]
    exact clamp_bounds _ _ _ (by norm_num)
  · intro temp throughput h1 h2
    simp [auto_required_voltage, h1, h2]

/-- Witness for C4: the all-zero Auto bank, and the division-by-zero fallback
at `temp = 170`, `throughput = 50`. -/
theorem auto_voltage_bounded_witness :
    getV bank_auto.co 4 = 0 ∧ getV bank_auto.hr 4 = 1 ∧
    (200 ≤ getV (plc_logic bank_auto).bank.ir 0 ∧
      getV (plc_logic bank_auto).bank.ir 0 ≤ 1000) ∧
    (¬ (50 : Int) < 20 ∧ 1 - max 0 ((((170 : Int) : ℚ) - 70) / 100) = 0) ∧
    auto_required_voltage 170 50 = 1000 :=
  ⟨rfl, rfl, (auto_voltage_bounded bank_auto rfl rfl).1,
   ⟨by decide, by norm_num⟩,
   (auto_voltage_bounded bank_auto rfl rfl).2 170 50 (by decide) (by norm_num)⟩

/-- **C2 counterexample**: the Controller's snapshot writer
`write_tmp_file_filtered` opens the target path itself for writing
(`open(TMP_FILE, "w")`), so it is not the case that no snapshot writer ever
writes the target path directly. -/
theorem controller_writes_snapshot_directly :
    writesTargetDirectly "plc1-tmp.json"
      (write_tmp_file_filtered_ops "plc1-tmp.json") = true := by
  decide

/-- **C2 (amended)**: the EnvironmentModel's `write_atomic` serializes to a
temporary path and finishes with one atomic replace of the target, never
opening the target directly; the Controller's `write_tmp_file_filtered`,
however, writes the target path directly with no temporary file. -/
theorem snapshot_write_disciplines (p : String) :
    writesTargetDirectly p (write_atomic_ops p) = false ∧
    (write_atomic_ops p).getLast? = some (.replaceFile (p ++ ".tmp") p) ∧
    writesTargetDirectly p (write_tmp_file_filtered_ops p) = true := by
  have hne : p ++ ".tmp" ≠ p := by
    intro hEq
    have hlen := congrArg String.length hEq
    rw [String.length_append] at hlen
    have h4 : (".tmp" : String).length = 4 := rfl
    omega
  refine ⟨?_, rfl, ?_⟩
  · simp [writesTargetDirectly, write_atomic_ops, hne]
  · simp [writesTargetDirectly, write_tmp_file_filtered_ops]

/-- **C5 counterexample**: on the all-zero (Idle) bank a Controller logic
cycle computes no deltas — empty change set, empty write trace — yet the
snapshot file is still rewritten, because `main` calls
`write_tmp_file_filtered` unconditionally after `plc_logic`. -/
theorem controller_cycle_always_rewrites_file :
    (controller_cycle bank0).1.changes = [] ∧
    (controller_cycle bank0).1.writes = [] ∧
    (controller_cycle bank0).2 = true := by
  refine ⟨?_, ?_, rfl⟩ <;> rfl

/-- **C5 (amended)**: the EnvironmentModel is delta-only — a sensor slot is
assigned and an update recorded only when the computed value differs from the
prior one, the change set is empty exactly when all computed values equal the
prior ones, and the snapshot file is rewritten exactly when the change set is
nonempty; the Controller, by contrast, rewrites the snapshot file on every
logic cycle regardless of deltas. -/
theorem env_delta_only_controller_not (t p θ nt np nθ : Int) (b : Bank) :
    ((env_logging_and_update t p θ nt np nθ).updates = [] ↔
      (nt = t ∧ np = p ∧ nθ = θ)) ∧
    ((env_logging_and_update t p θ nt np nθ).fileRewritten = false ↔
      (env_logging_and_update t p θ nt np nθ).updates = []) ∧
    ((env_logging_and_update t p θ nt np nθ).throughputOut = nt ∧
      (env_logging_and_update t p θ nt np nθ).pressureOut = np ∧
      (env_logging_and_update t p θ nt np nθ).temperatureOut = nθ) ∧
    (controller_cycle b).2 = true := by
  refine ⟨?_, ?_, ?_, rfl⟩ <;>
    · simp only [env_logging_and_update]
      split_ifs <;> simp_all

/-- **C6 counterexample**: in the `modbus-plc1.py` Controller variant the
snapshot read on a logic iteration runs outside any `try/except`, so a read or
parse failure propagates out of the `while True:` loop — the loop does not
log-and-continue. -/
theorem variant_loop_crashes_on_read_failure :
    (variant_loop_body false true).outcome = .crashed := by
  decide

/-- **C6 (amended)**: in the `modbus-1-plc.py` Controller loop and the
`modbus-1-field.py` reality loop, a snapshot read/parse failure is logged as a
warning, only that cycle's snapshot application is skipped, and the loop never
raises out of its body; the `modbus-plc1.py` variant, however, propagates the
exception and terminates its loop. -/
theorem loop_read_failure_handling (readOk logicIteration : Bool) :
    (controller_loop_body readOk logicIteration).outcome = .normal ∧
    (reality_loop_body readOk).outcome = .normal ∧
    (controller_loop_body false logicIteration).loggedWarning = true ∧
    (controller_loop_body false logicIteration).appliedSnapshot = false ∧
    (reality_loop_body false).loggedWarning = true ∧
    (reality_loop_body false).ranLogic = false ∧
    (variant_loop_body false true).outcome = .crashed := by
  cases readOk <;> cases logicIteration <;> decide

/-- **C9**: the Controller's snapshot projection contains every labelled slot
of the four spaces except the Mode holding register (HR 4), which is always
omitted, so the snapshot the Controller writes never carries a value for
Mode. -/
theorem snapshot_omits_mode (b : Bank) :
    (write_tmp_file_filtered b).holding_registers.map Prod.fst = [0, 1, 2, 3, 5, 6, 7] ∧
    (∀ x ∈ (write_tmp_file_filtered b).holding_registers, x.1 ≠ 4) ∧
    (∀ i ∈ labeled_holding_registers, i ≠ 4 →
      (i, getV b.hr i) ∈ (write_tmp_file_filtered b).holding_registers) ∧
    (write_tmp_file_filtered b).coils = labeled_coils.map (fun i => (i, getV b.co i)) ∧
    (write_tmp_file_filtered b).discrete_inputs
      = labeled_discrete_inputs.map (fun i => (i, getV b.di i)) ∧
    (write_tmp_file_filtered b).input_registers
      = labeled_input_registers.map (fun i => (i, getV b.ir i)) := by
  refine ⟨?_, ?_, ?_, rfl, rfl, rfl⟩
  · simp [write_tmp_file_filtered, labeled_holding_registers]
  · intro x hx
    simp [write_tmp_file_filtered, labeled_holding_registers] at hx
    rcases hx with h | h | h | h | h | h | h <;> simp [h]
  · intro i hi _
    fin_cases hi <;> simp_all [write_tmp_file_filtered, labeled_holding_registers]

/-- Witness for C9: on the all-zero bank, slot 3 (a non-Mode holding
register) is present in the written snapshot. -/
theorem snapshot_omits_mode_witness :
    (3 ∈ labeled_holding_registers ∧ (3 : Nat) ≠ 4) ∧
    (3, getV bank0.hr 3) ∈ (write_tmp_file_filtered bank0).holding_registers :=
  ⟨⟨by decide, by decide⟩,
   (snapshot_omits_mode bank0).2.2.1 3 (by decide) (by decide)⟩

theorem apply_di_entry_co (b : Bank) (e : RawEntry) : (apply_di_entry b e).co = b.co := by
  cases hk : e.key <;> cases hv : e.val <;> simp [apply_di_entry, hk, hv]

theorem apply_di_entry_hr (b : Bank) (e : RawEntry) : (apply_di_entry b e).hr = b.hr := by
  cases hk : e.key <;> cases hv : e.val <;> simp [apply_di_entry, hk, hv]

theorem apply_ir_entry_co (b : Bank) (e : RawEntry) : (apply_ir_entry b e).co = b.co := by
  cases hk : e.key <;> cases hv : e.val <;> simp [apply_ir_entry, hk, hv]

theorem apply_ir_entry_hr (b : Bank) (e : RawEntry) : (apply_ir_entry b e).hr = b.hr := by
  cases hk : e.key <;> cases hv : e.val <;> simp [apply_ir_entry, hk, hv]

theorem foldl_di_co (es : List RawEntry) : ∀ b : Bank,
    (es.foldl apply_di_entry b).co = b.co := by
  induction es with
  | nil => intro b; rfl
  | cons e es ih =>
      intro b
      rw [List.foldl_cons, ih, apply_di_entry_co]

theorem foldl_di_hr (es : List RawEntry) : ∀ b : Bank,
    (es.foldl apply_di_entry b).hr = b.hr := by
  induction es with
  | nil => intro b; rfl
  | cons e es ih =>
      intro b
      rw [List.foldl_cons, ih, apply_di_entry_hr]

theorem foldl_ir_co (es : List RawEntry) : ∀ b : Bank,
    (es.foldl apply_ir_entry b).co = b.co := by
  induction es with
  | nil => intro b; rfl
  | cons e es ih =>
      intro b
      rw [List.foldl_cons, ih, apply_ir_entry_co]

theorem foldl_ir_hr (es : List RawEntry) : ∀ b : Bank,
    (es.foldl apply_ir_entry b).hr = b.hr := by
  induction es with
  | nil => intro b; rfl
  | cons e es ih =>
      intro b
      rw [List.foldl_cons, ih, apply_ir_entry_hr]

theorem apply_di_entry_bad (b : Bank) (e : RawEntry) (h : goodEntry e = false) :
    apply_di_entry b e = b := by
  cases hk : e.key <;> cases hv : e.val <;>
    simp_all [apply_di_entry, goodEntry]

theorem apply_ir_entry_bad (b : Bank) (e : RawEntry) (h : goodEntry e = false) :
    apply_ir_entry b e = b := by
  cases hk : e.key <;> cases hv : e.val <;>
    simp_all [apply_ir_entry, goodEntry]

theorem foldl_di_filter_good (es : List RawEntry) : ∀ b : Bank,
    es.foldl apply_di_entry b = (es.filter goodEntry).foldl apply_di_entry b := by
  induction es with
  | nil => intro b; rfl
  | cons e es ih =>
      intro b
      rw [List.foldl_cons]
      cases hg : goodEntry e with
      | true => rw [List.filter_cons_of_pos hg, List.foldl_cons, ih]
      | false => rw [List.filter_cons_of_neg (by simp [hg]), apply_di_entry_bad b e hg, ih]

theorem foldl_ir_filter_good (es : List RawEntry) : ∀ b : Bank,
    es.foldl apply_ir_entry b = (es.filter goodEntry).foldl apply_ir_entry b := by
  induction es with
  | nil => intro b; rfl
  | cons e es ih =>
      intro b
      rw [List.foldl_cons]
      cases hg : goodEntry e with
      | true => rw [List.filter_cons_of_pos hg, List.foldl_cons, ih]
      | false => rw [List.filter_cons_of_neg (by simp [hg]), apply_ir_entry_bad b e hg, ih]

/-- **C10**: the Controller's per-cycle snapshot load applies only the
`discrete_inputs` and `input_registers` sections — the bank's coil and
holding-register spaces are left exactly as they were (and the `coils` /
`holding_registers` sections of the loaded data are never consulted) — and
every entry whose key or value fails integer conversion is silently skipped:
the load behaves as if only the well-converted entries were present. -/
theorem load_applies_only_sensor_sections (b : Bank) (data : RawData) :
    (update_modbus_memory b data).co = b.co ∧
    (update_modbus_memory b data).hr = b.hr ∧
    update_modbus_memory b data
      = update_modbus_memory b { data with coils := [], holding_registers := [] } ∧
    update_modbus_memory b data
      = update_modbus_memory b
          ⟨[], data.discrete_inputs.filter goodEntry, [],
            data.input_registers.filter goodEntry⟩ := by
  refine ⟨?_, ?_, rfl, ?_⟩
  · rw [update_modbus_memory, foldl_ir_co, foldl_di_co]
  · rw [update_modbus_memory, foldl_ir_hr, foldl_di_hr]
  · rw [update_modbus_memory, update_modbus_memory]
    rw [foldl_di_filter_good, foldl_ir_filter_good]

end OTDemo
